import Mathlib

/-
Verification of the article-and-profile repository layer of a Conduit-style
blogging backend (src/src/conduit/articles_repository.rs).

The repository façade is embedded directly from the source.  The four storage
adapters (`articles`, `favorites`, `followers`, `users`) and the error
`From`-conversions are not part of the presented source; they are modelled from
the spec (§4.3, §6, §7) over an explicit `Store` value, as noted on each
definition.  Uuids are modelled as `Nat`, timestamps as a `Nat` commit clock.
-/

set_option linter.unusedVariables false

namespace Conduit

/-- Decidable equality of adapter results, so that concrete runs can be checked
by evaluation. -/
instance {ε α : Type} [DecidableEq ε] [DecidableEq α] : DecidableEq (Except ε α) :=
  fun a b =>
    match a, b with
    | .ok x, .ok y =>
      if h : x = y then .isTrue (by rw [h])
      else .isFalse (by intro hc; cases hc; exact h rfl)
    | .error x, .error y =>
      if h : x = y then .isTrue (by rw [h])
      else .isFalse (by intro hc; cases hc; exact h rfl)
    | .ok _, .error _ => .isFalse (by intro hc; cases hc)
    | .error _, .ok _ => .isFalse (by intro hc; cases hc)

/-- Database row for a user (spec §6 persisted state layout). -/
structure UserRow where
  id : Nat
  email : String
  username : String
  bio : Option String
  image : Option String
deriving DecidableEq

/-- Database row for an article (spec §6 persisted state layout). -/
structure ArticleRow where
  slug : String
  title : String
  description : String
  body : String
  tagList : List String
  authorId : Nat
  favoritesCount : Nat
  createdAt : Nat
  updatedAt : Nat
deriving DecidableEq

/-- The relational store the adapters operate on: the four tables of spec §6
plus the transaction's commit-time clock. -/
structure Store where
  users : List UserRow
  articles : List ArticleRow
  favorites : List (Nat × String)
  followers : List (Nat × Nat)
  now : Nat
deriving DecidableEq

namespace domain

/-- domain::Profile — the public-facing subset of a User. -/
structure Profile where
  username : String
  bio : Option String
  image : Option String
deriving DecidableEq

/-- domain::User. -/
structure User where
  id : Nat
  email : String
  profile : Profile
deriving DecidableEq

/-- domain::ArticleContent — the draft shape. -/
structure ArticleContent where
  title : String
  description : String
  body : String
  tagList : List String
deriving DecidableEq

/-- domain::ArticleMetadata. -/
structure ArticleMetadata where
  createdAt : Nat
  updatedAt : Nat
deriving DecidableEq

/-- domain::Article. -/
structure Article where
  content : ArticleContent
  slug : String
  author : Profile
  metadata : ArticleMetadata
  favoritesCount : Nat
deriving DecidableEq

/-- domain::ProfileView — a profile joined with the viewer's follow flag. -/
structure ProfileView where
  profile : Profile
  following : Bool
  viewer : Nat
deriving DecidableEq

/-- domain::ArticleView — an article joined with the viewer's personalization. -/
structure ArticleView where
  content : ArticleContent
  slug : String
  author : ProfileView
  metadata : ArticleMetadata
  favorited : Bool
  favoritesCount : Nat
  viewer : Nat
deriving DecidableEq

/-- domain::ArticleUpdate — optional-field patch over (title, description, body). -/
structure ArticleUpdate where
  title : Option String
  description : Option String
  body : Option String
deriving DecidableEq

/-- domain::FavoriteOutcome, carrying the post-operation favorites_count. -/
inductive FavoriteOutcome where
  | newFavorite (favoritesCount : Nat)
  | alreadyFavorited (favoritesCount : Nat)
deriving DecidableEq

/-- Storage-adapter failure modes (spec §4.3: a declared NotFound, the slug
unique-constraint violation, or any other storage failure). -/
inductive AdapterError where
  | notFound
  | uniqueViolation
  | otherFailure
deriving DecidableEq

/-- domain::GetArticleError. -/
inductive GetArticleError where
  | notFound
  | databaseError
deriving DecidableEq

/-- domain::GetUserError. -/
inductive GetUserError where
  | notFound
  | databaseError
deriving DecidableEq

/-- domain::PublishArticleError. -/
inductive PublishArticleError where
  | slugAlreadyExists
  | databaseError
deriving DecidableEq

/-- domain::DatabaseError — a single opaque storage failure (it does not keep
a NotFound distinction). -/
inductive DatabaseError where
  | databaseError
deriving DecidableEq

/-- Modelled from the spec (§7; the From-conversion used by the source's `?`
operator is not part of the presented source): adapter NotFound maps to
GetArticleError::NotFound, everything else to DatabaseError. -/
def GetArticleError.fromAdapter : AdapterError → GetArticleError
  | .notFound => .notFound
  | _ => .databaseError

/-- Modelled from the spec (§7): adapter NotFound maps to
GetUserError::NotFound, everything else to DatabaseError. -/
def GetUserError.fromAdapter : AdapterError → GetUserError
  | .notFound => .notFound
  | _ => .databaseError

/-- Modelled from the spec (§7): a slug-uniqueness violation maps to
PublishArticleError::SlugAlreadyExists, everything else to DatabaseError. -/
def PublishArticleError.fromAdapter : AdapterError → PublishArticleError
  | .uniqueViolation => .slugAlreadyExists
  | _ => .databaseError

/-- Modelled from the spec: one character step of slug derivation — keep
alphanumerics lowercased, keep spaces (word separators), drop the rest. -/
def slugChar (c : Char) : Option Char :=
  if c.isAlpha ∨ c.isDigit then some c.toLower
  else if c = ' ' then some ' ' else none

/-- Split a character list on spaces. -/
def splitOnSpace : List Char → List (List Char)
  | [] => [[]]
  | c :: cs =>
    if c = ' ' then [] :: splitOnSpace cs
    else
      match splitOnSpace cs with
      | [] => [[c]]
      | w :: ws => (c :: w) :: ws

/-- Join words with a hyphen. -/
def joinHyphen : List (List Char) → List Char
  | [] => []
  | [w] => w
  | w :: ws => w ++ ('-' :: joinHyphen ws)

/-- Modelled from the spec: `ArticleContent::slug()` derives the canonical slug
deterministically from the title (glossary: URL-safe identifier; §8 expects
"Hello, World" to become "hello-world"). -/
def ArticleContent.slug (draft : ArticleContent) : String :=
  ⟨joinHyphen ((splitOnSpace (draft.title.data.filterMap slugChar)).filter
    (fun w => !w.isEmpty))⟩

end domain

namespace users

/-- Modelled from the spec (§4.3): `users::find(user_id) → row | NotFound`. -/
def find (store : Store) (userId : Nat) : Except domain.AdapterError UserRow :=
  match store.users.find? (fun u => u.id == userId) with
  | none => .error .notFound
  | some u => .ok u

/-- Modelled from the spec (§4.3): `users::find_by_username(username) → row | NotFound`. -/
def find_by_username (store : Store) (username : String) :
    Except domain.AdapterError UserRow :=
  match store.users.find? (fun u => u.username == username) with
  | none => .error .notFound
  | some u => .ok u

end users

namespace followers

/-- Modelled from the spec (§4.3): `followers::is_following(follower_id,
followed_id) → bool`, membership of the (follower, followed) pair. -/
def is_following (store : Store) (followerId followedId : Nat) : Bool :=
  store.followers.contains (followerId, followedId)

end followers

namespace favorites

/-- Modelled from the spec (§4.3): `favorites::is_favorite(user_id, slug) → bool`,
membership of the (user, slug) pair. -/
def is_favorite (store : Store) (userId : Nat) (slug : String) : Bool :=
  store.favorites.contains (userId, slug)

/-- Modelled from the spec (§4.3, §9): `favorites::are_favorite(user_id, slugs)
→ map slug→bool` with every input slug present as a key; a slug with no
membership row maps to false. -/
def are_favorite (store : Store) (userId : Nat) (slugs : List String) :
    List (String × Bool) :=
  slugs.map (fun s => (s, is_favorite store userId s))

/-- Current favorites_count column of the article row with the given slug. -/
def favoritesCountOf (store : Store) (slug : String) : Nat :=
  ((store.articles.find? (fun r => r.slug == slug)).map
    (fun r => r.favoritesCount)).getD 0

/-- The state transition of a fresh favorite insertion: add the membership row
and increment the article's favorites_count in the same transaction. -/
def insertFavorite (store : Store) (userId : Nat) (slug : String) : Store :=
  { store with
    favorites := (userId, slug) :: store.favorites,
    articles := store.articles.map (fun r =>
      if r.slug == slug then { r with favoritesCount := r.favoritesCount + 1 }
      else r) }

/-- Modelled from the spec (§4.1, §4.3): `favorites::favorite(user_id, slug) →
FavoriteOutcome`.  Inserting an already-present pair is a no-op returning
AlreadyFavorited; a fresh insertion adds the membership row and increments the
article's favorites_count atomically, returning NewFavorite.  Either way the
carried count is the post-operation count. -/
def favorite (store : Store) (userId : Nat) (slug : String) :
    Store × domain.FavoriteOutcome :=
  if (userId, slug) ∈ store.favorites then
    (store, .alreadyFavorited (favoritesCountOf store slug))
  else
    (insertFavorite store userId slug,
     .newFavorite (favoritesCountOf (insertFavorite store userId slug) slug))

end favorites

namespace articles

/-- Modelled from the spec (§4.1, §4.3): `articles::find_one(slug) → row |
NotFound`, joined with the author's current profile into the domain Article the
source's `get_by_slug` returns. -/
def find_one (store : Store) (slug : String) :
    Except domain.AdapterError domain.Article :=
  match store.articles.find? (fun r => r.slug == slug) with
  | none => .error .notFound
  | some r =>
    match users.find store r.authorId with
    | .error _ => .error .otherFailure
    | .ok u =>
      .ok { content := ⟨r.title, r.description, r.body, r.tagList⟩
            slug := r.slug
            author := ⟨u.username, u.bio, u.image⟩
            metadata := ⟨r.createdAt, r.updatedAt⟩
            favoritesCount := r.favoritesCount }

/-- Modelled from the spec (§4.1, §4.3): `articles::insert(new) → row`.  The
row is derived from (draft, author); slug uniqueness is enforced by the unique
constraint; timestamps are the transaction's commit-time clock; the count
starts at zero. -/
def insert (store : Store) (draft : domain.ArticleContent) (authorId : Nat) :
    Except domain.AdapterError (Store × ArticleRow) :=
  let slug := draft.slug
  if store.articles.any (fun r => r.slug == slug) then .error .uniqueViolation
  else
    let row : ArticleRow :=
      { slug := slug, title := draft.title, description := draft.description,
        body := draft.body, tagList := draft.tagList, authorId := authorId,
        favoritesCount := 0, createdAt := store.now, updatedAt := store.now }
    .ok ({ store with articles := row :: store.articles }, row)

/-- The row produced by applying an update patch: absent patch fields keep the
stored value, updated_at is refreshed to commit time, the slug is untouched. -/
def patchedRow (upd : domain.ArticleUpdate) (now : Nat) (r : ArticleRow) : ArticleRow :=
  { r with
    title := upd.title.getD r.title,
    description := upd.description.getD r.description,
    body := upd.body.getD r.body,
    updatedAt := now }

/-- Modelled from the spec (§4.1, §4.3, §9 open question 1): `articles::update
(patch, slug) → ()`.  Absent patch fields keep the stored value, updated_at is
refreshed to commit time, and the slug is not re-derived (slugs are immutable
after publish, the conservative default). -/
def update (store : Store) (upd : domain.ArticleUpdate) (slug : String) : Store :=
  { store with
    articles := store.articles.map (fun r =>
      if r.slug == slug then patchedRow upd store.now r else r) }

end articles

/-- One adapter round trip, recorded so that the number and keys of queries a
repository operation issues can be stated. -/
inductive AdapterCall where
  | areFavoriteQuery (userId : Nat) (slugs : List String)
  | isFavoriteQuery (userId : Nat) (slug : String)
  | findByUsernameQuery (username : String)
  | isFollowingQuery (followerId followedId : Nat)
deriving DecidableEq

/-- Does the call hit the favorites-membership adapter? -/
def AdapterCall.isFavoritesQuery : AdapterCall → Bool
  | .areFavoriteQuery _ _ => true
  | .isFavoriteQuery _ _ => true
  | _ => false

/-- Result of running code that may return a value, fail with a typed error, or
panic (a Rust `.unwrap()` on an Err, or indexing a map at a missing key). -/
inductive RunOutcome (ε α : Type) where
  | ok : α → RunOutcome ε α
  | err : ε → RunOutcome ε α
  | panicked : RunOutcome ε α
deriving DecidableEq

namespace Repository

/-- Embedding of `UsersRepository::get_view` (articles_repository.rs lines
125-142), instrumented with the adapter calls it issues: look up the profile by
username (adapter NotFound becomes GetUserError::NotFound via `?`), then ask
the followers adapter for the viewer's follow flag. -/
def get_view_traced (store : Store) (viewer : domain.User) (username : String) :
    Except domain.GetUserError domain.ProfileView × List AdapterCall :=
  match users.find_by_username store username with
  | .error e => (.error (domain.GetUserError.fromAdapter e),
                 [.findByUsernameQuery username])
  | .ok viewedUser =>
    let following := followers.is_following store viewer.id viewedUser.id
    (.ok { profile := { username := viewedUser.username, bio := viewedUser.bio,
                        image := viewedUser.image },
           following := following,
           viewer := viewer.id },
     [.findByUsernameQuery username, .isFollowingQuery viewer.id viewedUser.id])

/-- Embedding of `UsersRepository::get_view`: the returned result alone. -/
def get_view (store : Store) (viewer : domain.User) (username : String) :
    Except domain.GetUserError domain.ProfileView :=
  (get_view_traced store viewer username).1

/-- Embedding of `UsersRepository::get_by_id` (lines 119-123). -/
def get_by_id (store : Store) (userId : Nat) :
    Except domain.GetUserError domain.User :=
  match users.find store userId with
  | .error e => .error (domain.GetUserError.fromAdapter e)
  | .ok u =>
    .ok { id := u.id, email := u.email,
          profile := { username := u.username, bio := u.bio, image := u.image } }

/-- Embedding of `ArticleRepository::get_by_slug` (lines 26-28). -/
def get_by_slug (store : Store) (slug : String) :
    Except domain.GetArticleError domain.Article :=
  match articles.find_one store slug with
  | .error e => .error (domain.GetArticleError.fromAdapter e)
  | .ok a => .ok a

/-- Embedding of `ArticleRepository::publish` (lines 13-24): insert the row,
then assemble the domain Article from the draft, `draft.slug()`, the author's
profile, the inserted row's timestamps, and a zero count.  Returns the updated
store alongside the result. -/
def publish (store : Store) (draft : domain.ArticleContent) (author : domain.User) :
    Store × Except domain.PublishArticleError domain.Article :=
  match articles.insert store draft author.id with
  | .error e => (store, .error (domain.PublishArticleError.fromAdapter e))
  | .ok (s', result) =>
    let metadata : domain.ArticleMetadata := ⟨result.createdAt, result.updatedAt⟩
    let slug := draft.slug
    (s', .ok { content := draft, slug := slug, author := author.profile,
               metadata := metadata, favoritesCount := 0 })

/-- Embedding of `ArticleRepository::update_article` (lines 92-99): apply the
patch keyed by the article's (pre-update) slug, then re-read by that same slug;
the re-read's GetArticleError is widened to DatabaseError by `?`. -/
def update_article (store : Store) (article : domain.Article)
    (upd : domain.ArticleUpdate) : Store × Except domain.DatabaseError domain.Article :=
  let s' := articles.update store upd article.slug
  match get_by_slug s' article.slug with
  | .error _ => (s', .error .databaseError)
  | .ok a => (s', .ok a)

/-- Embedding of `ArticleRepository::favorite` (lines 101-107): delegate to the
favorites adapter keyed by (user.id, article.slug). -/
def favorite (store : Store) (article : domain.Article) (user : domain.User) :
    Store × domain.FavoriteOutcome :=
  favorites.favorite store user.id article.slug

/-- Embedding of `ArticleRepository::get_article_view` (lines 30-47): the
author-profile lookup result is `.unwrap()`-ed, so an error there panics; the
favorite flag comes from a single `is_favorite` lookup. -/
def get_article_view (store : Store) (viewer : domain.User)
    (article : domain.Article) : RunOutcome domain.GetArticleError domain.ArticleView :=
  match get_view store viewer article.author.username with
  | .error _ => .panicked
  | .ok authorView =>
    let isFav := favorites.is_favorite store viewer.id article.slug
    .ok { content := article.content, slug := article.slug, author := authorView,
          metadata := article.metadata, favorited := isFav,
          favoritesCount := article.favoritesCount, viewer := viewer.id }

/-- HashMap-style indexing into the precomputed favorites mapping: `favs[slug]`
panics when the key is absent, so the raw lookup returns an Option. -/
def lookupFav (favs : List (String × Bool)) (slug : String) : Option Bool :=
  (favs.find? (fun p => p.1 == slug)).map (fun p => p.2)

/-- The per-article loop of `get_articles_views` (lines 58-74): index the
precomputed favorites map (a missing key panics), resolve the author view (an
error fails the whole batch with DatabaseError via `?`), and cons the views in
input order; the fold stops at the first failure. -/
def views_loop (store : Store) (viewer : domain.User) (favs : List (String × Bool)) :
    List domain.Article →
      RunOutcome domain.DatabaseError (List domain.ArticleView) × List AdapterCall
  | [] => (.ok [], [])
  | a :: rest =>
    match lookupFav favs a.slug with
    | none => (.panicked, [])
    | some favorited =>
      match get_view_traced store viewer a.author.username with
      | (.error _, tr) => (.err .databaseError, tr)
      | (.ok authorView, tr) =>
        match views_loop store viewer favs rest with
        | (.ok views, tr') =>
          (.ok ({ content := a.content, slug := a.slug, author := authorView,
                  metadata := a.metadata, favorited := favorited,
                  favoritesCount := a.favoritesCount, viewer := viewer.id } :: views),
           tr ++ tr')
        | (.err e, tr') => (.err e, tr ++ tr')
        | (.panicked, tr') => (.panicked, tr ++ tr')

/-- Embedding of `ArticleRepository::get_articles_views` (lines 49-75),
instrumented: one batched favorites query keyed by (viewer.id, the input slugs
in order), then the per-article loop over the precomputed mapping. -/
def get_articles_views_traced (store : Store) (viewer : domain.User)
    (arts : List domain.Article) :
    RunOutcome domain.DatabaseError (List domain.ArticleView) × List AdapterCall :=
  let slugs := arts.map (fun a => a.slug)
  let favs := favorites.are_favorite store viewer.id slugs
  let (res, tr) := views_loop store viewer favs arts
  (res, .areFavoriteQuery viewer.id slugs :: tr)

/-- Embedding of `ArticleRepository::get_articles_views`: the result alone. -/
def get_articles_views (store : Store) (viewer : domain.User)
    (arts : List domain.Article) :
    RunOutcome domain.DatabaseError (List domain.ArticleView) :=
  (get_articles_views_traced store viewer arts).1

end Repository

/-
Concrete fixtures, mirroring the literal end-to-end scenarios of spec §8
(alice publishes "hello-world" and "second-post"; the viewer favorites only
"second-post").  They are used by the witness theorems below.
-/

/-- Row for the author alice (id 2). -/
def rowAlice : UserRow := ⟨2, "alice@example.com", "alice", none, none⟩

/-- Row for the viewer vic (id 1). -/
def rowVic : UserRow := ⟨1, "vic@example.com", "vic", none, none⟩

/-- Stored row of the article "hello-world", authored by alice. -/
def rowHello : ArticleRow :=
  ⟨"hello-world", "Hello, World", "greet", "body one", ["intro"], 2, 0, 5, 5⟩

/-- Stored row of the article "second-post", authored by alice, one favorite. -/
def rowSecond : ArticleRow :=
  ⟨"second-post", "Second Post", "more", "body two", [], 2, 1, 6, 6⟩

/-- A store holding alice, vic, both articles, and vic's favorite of
"second-post"; nobody follows anybody. -/
def sampleStore : Store :=
  { users := [rowAlice, rowVic],
    articles := [rowHello, rowSecond],
    favorites := [(1, "second-post")],
    followers := [],
    now := 9 }

/-- The viewer vic as a domain user. -/
def viewerVic : domain.User := ⟨1, "vic@example.com", ⟨"vic", none, none⟩⟩

/-- The author alice as a domain user. -/
def authorAlice : domain.User := ⟨2, "alice@example.com", ⟨"alice", none, none⟩⟩

/-- The domain article for "hello-world". -/
def articleHello : domain.Article :=
  ⟨⟨"Hello, World", "greet", "body one", ["intro"]⟩, "hello-world",
   ⟨"alice", none, none⟩, ⟨5, 5⟩, 0⟩

/-- The domain article for "second-post". -/
def articleSecond : domain.Article :=
  ⟨⟨"Second Post", "more", "body two", []⟩, "second-post",
   ⟨"alice", none, none⟩, ⟨6, 6⟩, 1⟩

/-- The article list handed to the batched view operation. -/
def sampleArts : List domain.Article := [articleHello, articleSecond]

/-- The views the batched operation returns on the sample store: input order,
favorited = [false, true] as in spec §8. -/
def sampleViews : List domain.ArticleView :=
  [⟨⟨"Hello, World", "greet", "body one", ["intro"]⟩, "hello-world",
    ⟨⟨"alice", none, none⟩, false, 1⟩, ⟨5, 5⟩, false, 0, 1⟩,
   ⟨⟨"Second Post", "more", "body two", []⟩, "second-post",
    ⟨⟨"alice", none, none⟩, false, 1⟩, ⟨6, 6⟩, true, 1, 1⟩]

/-- An article whose author "ghost" exists in no store. -/
def articleGhost : domain.Article :=
  ⟨⟨"Ghost Post", "none", "body", []⟩, "ghost-post", ⟨"ghost", none, none⟩, ⟨0, 0⟩, 0⟩

/-- A store with no users at all. -/
def emptyStore : Store := ⟨[], [], [], [], 3⟩

/-- The draft of spec §8's publish scenario. -/
def draftHello : domain.ArticleContent := ⟨"Hello, World", "greet", "body one", ["intro"]⟩

/-- A patch that replaces only the title. -/
def updTitle : domain.ArticleUpdate := ⟨some "New Title", none, none⟩

/-
Helper lemmas about the batched-view loop, shared by several claims.
-/

/-- Indexing the batched favorites mapping at any input slug yields exactly the
single-slug membership answer against the same store snapshot. -/
theorem lookupFav_are_favorite (store : Store) (userId : Nat) (slugs : List String)
    (s : String) (hs : s ∈ slugs) :
    Repository.lookupFav (favorites.are_favorite store userId slugs) s
      = some (favorites.is_favorite store userId s) := by
  induction slugs with
  | nil => cases hs
  | cons a rest ih =>
    by_cases hax : a = s
    · subst hax
      simp [favorites.are_favorite, Repository.lookupFav]
    · have hs' : s ∈ rest := by
        rcases List.mem_cons.mp hs with h | h
        · exact absurd h.symm hax
        · exact h
      have hrec := ih hs'
      simp only [favorites.are_favorite, List.map_cons, Repository.lookupFav] at hrec ⊢
      rw [List.find?_cons_of_neg]
      · exact hrec
      · simp [hax]

/-- A key that is present in the mapping makes the indexing succeed. -/
theorem lookupFav_isSome_of_mem_keys (favs : List (String × Bool)) (s : String)
    (h : s ∈ favs.map Prod.fst) :
    ∃ b, Repository.lookupFav favs s = some b := by
  induction favs with
  | nil => simp at h
  | cons p rest ih =>
    by_cases hp : p.1 = s
    · exact ⟨p.2, by simp [Repository.lookupFav, List.find?_cons_of_pos, hp]⟩
    · have hs' : s ∈ rest.map Prod.fst := by
        simp only [List.map_cons, List.mem_cons] at h
        rcases h with h | h
        · exact absurd h.symm hp
        · exact h
      obtain ⟨b, hb⟩ := ih hs'
      refine ⟨b, ?_⟩
      simp only [Repository.lookupFav] at hb ⊢
      rw [List.find?_cons_of_neg]
      · exact hb
      · simp [hp]

/-- Every view a successful loop run returns agrees with its input article on
the slug and carries the favorited bit the precomputed mapping holds for that
slug. -/
theorem views_loop_ok_spec (store : Store) (viewer : domain.User)
    (favs : List (String × Bool)) :
    ∀ (arts : List domain.Article) (views : List domain.ArticleView),
      (Repository.views_loop store viewer favs arts).1 = .ok views →
      List.Forall₂ (fun (v : domain.ArticleView) (a : domain.Article) =>
          v.slug = a.slug ∧ Repository.lookupFav favs a.slug = some v.favorited)
        views arts := by
  intro arts
  induction arts with
  | nil =>
    intro views h
    simp only [Repository.views_loop] at h
    cases h
    constructor
  | cons a rest ih =>
    intro views h
    simp only [Repository.views_loop] at h
    cases hl : Repository.lookupFav favs a.slug with
    | none => rw [hl] at h; simp at h
    | some favorited =>
      rw [hl] at h
      cases hgv : Repository.get_view_traced store viewer a.author.username with
      | mk r tr =>
        rw [hgv] at h
        cases r with
        | error e => simp at h
        | ok authorView =>
          cases hrest : Repository.views_loop store viewer favs rest with
          | mk res tr' =>
            rw [hrest] at h
            cases res with
            | ok views' =>
              simp at h
              subst h
              exact List.Forall₂.cons ⟨rfl, hl⟩ (ih views' (by rw [hrest]))
            | err e => simp at h
            | panicked => simp at h

/-- A profile-view lookup issues no favorites-membership query. -/
theorem get_view_traced_no_fav (store : Store) (viewer : domain.User) (username : String) :
    ∀ c ∈ (Repository.get_view_traced store viewer username).2,
      c.isFavoritesQuery = false := by
  intro c hc
  simp only [Repository.get_view_traced] at hc
  cases h : users.find_by_username store username with
  | error e => rw [h] at hc; simp at hc; subst hc; rfl
  | ok u =>
    rw [h] at hc; simp at hc
    rcases hc with rfl | rfl <;> rfl

/-- The per-article loop issues no favorites-membership query either: all its
adapter traffic is author-profile resolution. -/
theorem views_loop_trace_no_fav (store : Store) (viewer : domain.User)
    (favs : List (String × Bool)) :
    ∀ (arts : List domain.Article) (c : AdapterCall),
      c ∈ (Repository.views_loop store viewer favs arts).2 →
      c.isFavoritesQuery = false := by
  intro arts
  induction arts with
  | nil => intro c hc; simp [Repository.views_loop] at hc
  | cons a rest ih =>
    intro c hc
    simp only [Repository.views_loop] at hc
    cases hl : Repository.lookupFav favs a.slug with
    | none => rw [hl] at hc; simp at hc
    | some favorited =>
      rw [hl] at hc
      cases hgv : Repository.get_view_traced store viewer a.author.username with
      | mk r tr =>
        rw [hgv] at hc
        have htr : ∀ c' ∈ tr, AdapterCall.isFavoritesQuery c' = false := by
          intro c' hc'
          exact get_view_traced_no_fav store viewer a.author.username c'
            (by rw [hgv]; exact hc')
        cases r with
        | error e => simp at hc; exact htr c hc
        | ok authorView =>
          cases hrest : Repository.views_loop store viewer favs rest with
          | mk res tr' =>
            rw [hrest] at hc
            have htr' : c ∈ tr' → AdapterCall.isFavoritesQuery c = false := by
              intro hc'
              exact ih c (by rw [hrest]; exact hc')
            cases res with
            | ok views' =>
              simp at hc
              rcases hc with hc | hc
              exacts [htr c hc, htr' hc]
            | err e =>
              simp at hc
              rcases hc with hc | hc
              exacts [htr c hc, htr' hc]
            | panicked =>
              simp at hc
              rcases hc with hc | hc
              exacts [htr c hc, htr' hc]

/-- The batched operation's result is the loop's result over the batched
mapping keyed by the input slugs. -/
theorem get_articles_views_eq_loop (store : Store) (viewer : domain.User)
    (arts : List domain.Article) :
    Repository.get_articles_views store viewer arts
      = (Repository.views_loop store viewer
          (favorites.are_favorite store viewer.id (arts.map (fun a => a.slug)))
          arts).1 := by
  cases hvl : Repository.views_loop store viewer
      (favorites.are_favorite store viewer.id (arts.map (fun a => a.slug))) arts with
  | mk res tr =>
    simp only [Repository.get_articles_views, Repository.get_articles_views_traced]
    rw [hvl]

/-- The batched operation's trace is the batched favorites query followed by
the loop's trace. -/
theorem get_articles_views_trace_eq (store : Store) (viewer : domain.User)
    (arts : List domain.Article) :
    (Repository.get_articles_views_traced store viewer arts).2
      = .areFavoriteQuery viewer.id (arts.map (fun a => a.slug))
        :: (Repository.views_loop store viewer
             (favorites.are_favorite store viewer.id (arts.map (fun a => a.slug)))
             arts).2 := by
  cases hvl : Repository.views_loop store viewer
      (favorites.are_favorite store viewer.id (arts.map (fun a => a.slug))) arts with
  | mk res tr =>
    simp only [Repository.get_articles_views_traced]
    rw [hvl]

/-- C1: for every viewer and article list, `get_articles_views` issues exactly
one favorites-membership query — the batched `are_favorite` keyed by viewer.id
and the input slugs — and, on success, each returned view's favorited flag
equals `is_favorite(viewer.id, slug)` for its article's slug, evaluated against
the same store snapshot as the batched query. -/
theorem get_articles_views_single_batched_favorites (store : Store)
    (viewer : domain.User) (arts : List domain.Article) :
    ((Repository.get_articles_views_traced store viewer arts).2).filter
        AdapterCall.isFavoritesQuery
      = [.areFavoriteQuery viewer.id (arts.map (fun a => a.slug))] ∧
    ∀ views, Repository.get_articles_views store viewer arts = .ok views →
      ∀ i (h1 : i < views.length) (h2 : i < arts.length),
        (views.get ⟨i, h1⟩).favorited
          = favorites.is_favorite store viewer.id ((arts.get ⟨i, h2⟩).slug) := by
  constructor
  · rw [get_articles_views_trace_eq]
    have hnil : ((Repository.views_loop store viewer
        (favorites.are_favorite store viewer.id (arts.map (fun a => a.slug)))
        arts).2).filter AdapterCall.isFavoritesQuery = [] :=
      List.filter_eq_nil_iff.mpr (fun c hc => by
        simp [views_loop_trace_no_fav store viewer _ arts c hc])
    simp [AdapterCall.isFavoritesQuery, hnil]
  · intro views hviews i h1 h2
    rw [get_articles_views_eq_loop] at hviews
    have hf2 := views_loop_ok_spec store viewer _ arts views hviews
    have hp := hf2.get h1 h2
    have hmem : (arts.get ⟨i, h2⟩).slug ∈ arts.map (fun a => a.slug) :=
      List.mem_map.mpr ⟨arts.get ⟨i, h2⟩, List.get_mem arts i h2, rfl⟩
    have hlk := lookupFav_are_favorite store viewer.id (arts.map (fun a => a.slug))
      ((arts.get ⟨i, h2⟩).slug) hmem
    have hv := hp.2
    rw [hlk] at hv
    exact (Option.some.injEq _ _ ▸ hv).symm

/-- C1 witness: on the sample store the trace holds exactly the batched query
keyed by (vic, both slugs), and the second view's favorited flag equals vic's
single-slug membership of "second-post". -/
theorem get_articles_views_single_batched_favorites_witness :
    ((Repository.get_articles_views_traced sampleStore viewerVic sampleArts).2).filter
        AdapterCall.isFavoritesQuery
      = [.areFavoriteQuery viewerVic.id (sampleArts.map (fun a => a.slug))] ∧
    (sampleViews.get ⟨1, by decide⟩).favorited
      = favorites.is_favorite sampleStore viewerVic.id
          ((sampleArts.get ⟨1, by decide⟩).slug) :=
  ⟨(get_articles_views_single_batched_favorites sampleStore viewerVic sampleArts).1,
   (get_articles_views_single_batched_favorites sampleStore viewerVic sampleArts).2
     sampleViews (by decide) 1 (by decide) (by decide)⟩

/-- C2: a successful `get_articles_views` returns one view per input article in
the input order: the lengths agree and the i-th view's slug is the i-th input
article's slug. -/
theorem get_articles_views_preserves_order (store : Store) (viewer : domain.User)
    (arts : List domain.Article) :
    ∀ views, Repository.get_articles_views store viewer arts = .ok views →
      views.length = arts.length ∧
      ∀ i (h1 : i < views.length) (h2 : i < arts.length),
        (views.get ⟨i, h1⟩).slug = (arts.get ⟨i, h2⟩).slug := by
  intro views hviews
  rw [get_articles_views_eq_loop] at hviews
  have hf2 := views_loop_ok_spec store viewer _ arts views hviews
  exact ⟨hf2.length_eq, fun i h1 h2 => (hf2.get h1 h2).1⟩

/-- C2 witness: on the sample store the batched view run succeeds with two
views whose slugs sit in input order. -/
theorem get_articles_views_preserves_order_witness :
    sampleViews.length = sampleArts.length ∧
    (sampleViews.get ⟨0, by decide⟩).slug = (sampleArts.get ⟨0, by decide⟩).slug :=
  ⟨(get_articles_views_preserves_order sampleStore viewerVic sampleArts
      sampleViews (by decide)).1,
   (get_articles_views_preserves_order sampleStore viewerVic sampleArts
      sampleViews (by decide)).2 0 (by decide) (by decide)⟩


theorem favorites_favorite_of_mem (store : Store) (uid : Nat) (slug : String)
    (h : (uid, slug) ∈ store.favorites) :
    favorites.favorite store uid slug
      = (store, .alreadyFavorited (favorites.favoritesCountOf store slug)) := by
  simp [favorites.favorite, h]

theorem favorites_favorite_of_not_mem (store : Store) (uid : Nat) (slug : String)
    (h : (uid, slug) ∉ store.favorites) :
    favorites.favorite store uid slug
      = (favorites.insertFavorite store uid slug,
         .newFavorite (favorites.favoritesCountOf
           (favorites.insertFavorite store uid slug) slug)) := by
  simp [favorites.favorite, h]

theorem mem_insertFavorite (store : Store) (uid : Nat) (slug : String) :
    (uid, slug) ∈ (favorites.insertFavorite store uid slug).favorites := by
  simp [favorites.insertFavorite]

/-- C3: `favorite` is idempotent — a second `favorite(a, u)` call leaves the
store exactly as the first call left it — and on a pair that was not favorited
the first call returns NewFavorite and the second AlreadyFavorited, both
carrying the authoritative post-operation favorites_count of the article. -/
theorem favorite_idempotent (store : Store) (article : domain.Article)
    (user : domain.User) :
    (Repository.favorite (Repository.favorite store article user).1 article user).1
      = (Repository.favorite store article user).1 ∧
    ((user.id, article.slug) ∉ store.favorites →
      ∃ c, (Repository.favorite store article user).2 = .newFavorite c ∧
        (Repository.favorite (Repository.favorite store article user).1 article user).2
          = .alreadyFavorited c ∧
        c = favorites.favoritesCountOf (Repository.favorite store article user).1
              article.slug) := by
  by_cases hmem : (user.id, article.slug) ∈ store.favorites
  · have h1 : Repository.favorite store article user
        = (store, .alreadyFavorited (favorites.favoritesCountOf store article.slug)) := by
      simp only [Repository.favorite]
      exact favorites_favorite_of_mem store user.id article.slug hmem
    have e1 : (Repository.favorite store article user).1 = store := by rw [h1]
    constructor
    · rw [e1]
      exact e1
    · intro h
      exact absurd hmem h
  · have h1 : Repository.favorite store article user
        = (favorites.insertFavorite store user.id article.slug,
           .newFavorite (favorites.favoritesCountOf
             (favorites.insertFavorite store user.id article.slug) article.slug)) := by
      simp only [Repository.favorite]
      exact favorites_favorite_of_not_mem store user.id article.slug hmem
    have e1 : (Repository.favorite store article user).1
        = favorites.insertFavorite store user.id article.slug := by rw [h1]
    have h2 : Repository.favorite (favorites.insertFavorite store user.id article.slug)
        article user
        = (favorites.insertFavorite store user.id article.slug,
           .alreadyFavorited (favorites.favoritesCountOf
             (favorites.insertFavorite store user.id article.slug) article.slug)) := by
      simp only [Repository.favorite]
      exact favorites_favorite_of_mem _ user.id article.slug
        (mem_insertFavorite store user.id article.slug)
    constructor
    · rw [e1, h2]
    · intro _
      refine ⟨favorites.favoritesCountOf
          (favorites.insertFavorite store user.id article.slug) article.slug,
        ?_, ?_, ?_⟩
      · rw [h1]
      · rw [e1, h2]
      · rw [e1]

/-- C3 witness: vic favorites "hello-world" twice on the sample store, where
the pair is initially absent. -/
theorem favorite_idempotent_witness :
    (Repository.favorite (Repository.favorite sampleStore articleHello viewerVic).1
        articleHello viewerVic).1
      = (Repository.favorite sampleStore articleHello viewerVic).1 ∧
    (∃ c, (Repository.favorite sampleStore articleHello viewerVic).2 = .newFavorite c ∧
      (Repository.favorite (Repository.favorite sampleStore articleHello viewerVic).1
          articleHello viewerVic).2
        = .alreadyFavorited c ∧
      c = favorites.favoritesCountOf
            (Repository.favorite sampleStore articleHello viewerVic).1
            articleHello.slug) :=
  ⟨(favorite_idempotent sampleStore articleHello viewerVic).1,
   (favorite_idempotent sampleStore articleHello viewerVic).2 (by decide)⟩

/-- C4: a successful `publish(draft, author)` returns an Article whose content
is the draft, whose slug is `draft.slug()`, whose metadata is the inserted
row's commit-time timestamps, whose author is the passed author's profile
snapshot, and whose favorites_count is 0; the store gains exactly that row. -/
theorem publish_spec (store : Store) (draft : domain.ArticleContent)
    (author : domain.User)
    (h : ∀ r ∈ store.articles, r.slug ≠ draft.slug) :
    Repository.publish store draft author
      = ({ store with articles :=
             { slug := draft.slug, title := draft.title,
               description := draft.description, body := draft.body,
               tagList := draft.tagList, authorId := author.id,
               favoritesCount := 0, createdAt := store.now, updatedAt := store.now }
             :: store.articles },
         .ok { content := draft, slug := draft.slug, author := author.profile,
               metadata := ⟨store.now, store.now⟩, favoritesCount := 0 }) := by
  have hany : store.articles.any (fun r => r.slug == draft.slug) = false := by
    rw [List.any_eq_false]
    intro r hr
    simpa using h r hr
  simp [Repository.publish, articles.insert, hany]

/-- C4 witness: publishing the "Hello, World" draft into an empty store. -/
theorem publish_spec_witness :
    Repository.publish emptyStore draftHello authorAlice
      = ({ emptyStore with articles :=
             { slug := draftHello.slug, title := draftHello.title,
               description := draftHello.description, body := draftHello.body,
               tagList := draftHello.tagList, authorId := authorAlice.id,
               favoritesCount := 0, createdAt := emptyStore.now,
               updatedAt := emptyStore.now }
             :: emptyStore.articles },
         .ok { content := draftHello, slug := draftHello.slug,
               author := authorAlice.profile,
               metadata := ⟨emptyStore.now, emptyStore.now⟩, favoritesCount := 0 }) :=
  publish_spec emptyStore draftHello authorAlice (by decide)

theorem find?_map_of_pres (g : ArticleRow → ArticleRow) (p : ArticleRow → Bool)
    (hg : ∀ r, p (g r) = p r) :
    ∀ (l : List ArticleRow) (row : ArticleRow), l.find? p = some row →
      (l.map g).find? p = some (g row) := by
  intro l
  induction l with
  | nil => intro row h; simp at h
  | cons a rest ih =>
    intro row h
    by_cases ha : p a
    · rw [List.find?_cons_of_pos _ ha] at h
      cases h
      rw [List.map_cons, List.find?_cons_of_pos]
      rw [hg a]
      exact ha
    · rw [List.find?_cons_of_neg _ ha] at h
      rw [List.map_cons, List.find?_cons_of_neg]
      · exact ih row h
      · rw [hg a]
        exact ha

/-- C5: `update_article` applies the patch and then re-reads by the article's
pre-update slug, returning exactly the persisted entity found at that old slug
(the patched row, updated_at refreshed to commit time, slug unchanged). -/
theorem update_article_rereads_old_slug (store : Store) (article : domain.Article)
    (upd : domain.ArticleUpdate) (row : ArticleRow) (author : UserRow)
    (hrow : store.articles.find? (fun r => r.slug == article.slug) = some row)
    (hauthor : users.find store row.authorId = .ok author) :
    Repository.update_article store article upd
      = (articles.update store upd article.slug,
         .ok { content := { title := upd.title.getD row.title,
                            description := upd.description.getD row.description,
                            body := upd.body.getD row.body,
                            tagList := row.tagList },
               slug := row.slug,
               author := ⟨author.username, author.bio, author.image⟩,
               metadata := ⟨row.createdAt, store.now⟩,
               favoritesCount := row.favoritesCount }) := by
  have hpred : (row.slug == article.slug) = true := by
    have hp := List.find?_some hrow
    simpa using hp
  have hg : ∀ r : ArticleRow,
      ((if r.slug == article.slug then articles.patchedRow upd store.now r else r).slug
        == article.slug) = (r.slug == article.slug) := by
    intro r
    by_cases h : (r.slug == article.slug) = true
    · simp [h, articles.patchedRow]
    · simp [h]
  have hfind : ((articles.update store upd article.slug).articles).find?
      (fun r => r.slug == article.slug)
      = some (articles.patchedRow upd store.now row) := by
    have hmap := find?_map_of_pres
      (fun r => if r.slug == article.slug then articles.patchedRow upd store.now r else r)
      (fun r => r.slug == article.slug) hg store.articles row hrow
    simpa [articles.update, hpred] using hmap
  have husers : users.find (articles.update store upd article.slug)
      row.authorId = .ok author := hauthor
  have hone : articles.find_one (articles.update store upd article.slug) article.slug
      = .ok { content := { title := upd.title.getD row.title,
                           description := upd.description.getD row.description,
                           body := upd.body.getD row.body,
                           tagList := row.tagList },
              slug := row.slug,
              author := ⟨author.username, author.bio, author.image⟩,
              metadata := ⟨row.createdAt, store.now⟩,
              favoritesCount := row.favoritesCount } := by
    simp [articles.find_one, hfind, husers, articles.patchedRow]
  simp [Repository.update_article, Repository.get_by_slug, hone]

/-- C5 witness: retitling "hello-world" on the sample store. -/
theorem update_article_rereads_old_slug_witness :
    Repository.update_article sampleStore articleHello updTitle
      = (articles.update sampleStore updTitle articleHello.slug,
         .ok { content := { title := updTitle.title.getD rowHello.title,
                            description := updTitle.description.getD rowHello.description,
                            body := updTitle.body.getD rowHello.body,
                            tagList := rowHello.tagList },
               slug := rowHello.slug,
               author := ⟨rowAlice.username, rowAlice.bio, rowAlice.image⟩,
               metadata := ⟨rowHello.createdAt, sampleStore.now⟩,
               favoritesCount := rowHello.favoritesCount }) :=
  update_article_rereads_old_slug sampleStore articleHello updTitle rowHello rowAlice
    (by decide) (by decide)

/-- C6: the error-propagation policy — an adapter NotFound from `get_by_slug`
surfaces as GetArticleError::NotFound; an adapter NotFound from `get_by_id` or
`get_view` surfaces as GetUserError::NotFound; a slug-uniqueness violation in
`publish` surfaces as PublishArticleError::SlugAlreadyExists; every other
adapter failure maps to the DatabaseError variant of the conversions; no error
is recovered or retried. -/
theorem error_propagation_policy :
    (∀ (store : Store) (slug : String),
      store.articles.find? (fun r => r.slug == slug) = none →
      Repository.get_by_slug store slug = .error .notFound) ∧
    (∀ (store : Store) (userId : Nat),
      users.find store userId = .error .notFound →
      Repository.get_by_id store userId = .error .notFound) ∧
    (∀ (store : Store) (viewer : domain.User) (username : String),
      users.find_by_username store username = .error .notFound →
      Repository.get_view store viewer username = .error .notFound) ∧
    (∀ (store : Store) (draft : domain.ArticleContent) (author : domain.User),
      (∃ r ∈ store.articles, r.slug = draft.slug) →
      Repository.publish store draft author = (store, .error .slugAlreadyExists)) ∧
    domain.GetArticleError.fromAdapter .otherFailure = .databaseError ∧
    domain.GetUserError.fromAdapter .otherFailure = .databaseError ∧
    domain.PublishArticleError.fromAdapter .uniqueViolation = .slugAlreadyExists ∧
    domain.PublishArticleError.fromAdapter .otherFailure = .databaseError := by
  refine ⟨?_, ?_, ?_, ?_, rfl, rfl, rfl, rfl⟩
  · intro store slug h
    simp [Repository.get_by_slug, articles.find_one, h,
      domain.GetArticleError.fromAdapter]
  · intro store userId h
    simp [Repository.get_by_id, h, domain.GetUserError.fromAdapter]
  · intro store viewer username h
    simp [Repository.get_view, Repository.get_view_traced, h,
      domain.GetUserError.fromAdapter]
  · intro store draft author ⟨r, hr, hrs⟩
    have hany : store.articles.any (fun x => x.slug == draft.slug) = true :=
      List.any_eq_true.mpr ⟨r, hr, by simp [hrs]⟩
    simp [Repository.publish, articles.insert, hany,
      domain.PublishArticleError.fromAdapter]

/-- C6 witness: each branch of the policy at a concrete input on the sample
store (a missing slug, a missing user id, a missing username, and re-publishing
a draft whose slug "hello-world" is already taken). -/
theorem error_propagation_policy_witness :
    Repository.get_by_slug sampleStore "missing-slug" = .error .notFound ∧
    Repository.get_by_id sampleStore 99 = .error .notFound ∧
    Repository.get_view sampleStore viewerVic "ghost" = .error .notFound ∧
    Repository.publish sampleStore
        ⟨"Hello, World", "greet", "body one", ["intro"]⟩ authorAlice
      = (sampleStore, .error .slugAlreadyExists) :=
  ⟨error_propagation_policy.1 sampleStore "missing-slug" (by decide),
   error_propagation_policy.2.1 sampleStore 99 (by decide),
   error_propagation_policy.2.2.1 sampleStore viewerVic "ghost" (by decide),
   error_propagation_policy.2.2.2.1 sampleStore
     ⟨"Hello, World", "greet", "body one", ["intro"]⟩ authorAlice
     ⟨rowHello, by decide, by decide⟩⟩

/-- C7: a viewer looking at their own username gets `following = false`,
provided the username resolves to the viewer's own row and the followers
relation holds no self-pairs. -/
theorem get_view_self_not_following (store : Store) (viewer : domain.User)
    (row : UserRow)
    (hrow : users.find_by_username store viewer.profile.username = .ok row)
    (hid : row.id = viewer.id)
    (hself : ∀ v, followers.is_following store v v = false) :
    ∃ pv, Repository.get_view store viewer viewer.profile.username = .ok pv ∧
      pv.following = false := by
  have h1 : Repository.get_view store viewer viewer.profile.username
      = .ok { profile := ⟨row.username, row.bio, row.image⟩,
              following := followers.is_following store viewer.id row.id,
              viewer := viewer.id } := by
    simp only [Repository.get_view, Repository.get_view_traced]
    rw [hrow]
  refine ⟨_, h1, ?_⟩
  show followers.is_following store viewer.id row.id = false
  rw [hid]
  exact hself viewer.id

/-- C7 witness: vic viewing "vic" on the sample store, whose followers table
is empty. -/
theorem get_view_self_not_following_witness :
    ∃ pv, Repository.get_view sampleStore viewerVic viewerVic.profile.username
        = .ok pv ∧ pv.following = false :=
  get_view_self_not_following sampleStore viewerVic rowVic (by decide) (by decide)
    (fun v => rfl)

theorem views_loop_no_panic (store : Store) (viewer : domain.User)
    (favs : List (String × Bool)) :
    ∀ (arts : List domain.Article),
      (∀ a ∈ arts, ∃ b, Repository.lookupFav favs a.slug = some b) →
      (Repository.views_loop store viewer favs arts).1 ≠ .panicked := by
  intro arts
  induction arts with
  | nil =>
    intro _
    simp [Repository.views_loop]
  | cons a rest ih =>
    intro hall
    obtain ⟨b, hb⟩ := hall a (List.mem_cons_self a rest)
    simp only [Repository.views_loop]
    rw [hb]
    cases hgv : Repository.get_view_traced store viewer a.author.username with
    | mk r tr =>
      cases r with
      | error e => simp
      | ok authorView =>
        have hrec := ih (fun a' ha' => hall a' (List.mem_cons_of_mem a ha'))
        cases hrest : Repository.views_loop store viewer favs rest with
        | mk res tr' =>
          rw [hrest] at hrec
          cases res with
          | ok views' => simp
          | err e => simp
          | panicked => simp at hrec

theorem views_loop_err_of_exists (store : Store) (viewer : domain.User)
    (favs : List (String × Bool)) :
    ∀ (arts : List domain.Article),
      (∀ a ∈ arts, ∃ b, Repository.lookupFav favs a.slug = some b) →
      (∃ a ∈ arts, ∃ e, (Repository.get_view_traced store viewer a.author.username).1
          = .error e) →
      (Repository.views_loop store viewer favs arts).1 = .err .databaseError := by
  intro arts
  induction arts with
  | nil =>
    intro _ hex
    obtain ⟨a, ha, _⟩ := hex
    cases ha
  | cons a rest ih =>
    intro hall hex
    obtain ⟨b, hb⟩ := hall a (List.mem_cons_self a rest)
    simp only [Repository.views_loop]
    rw [hb]
    cases hgv : Repository.get_view_traced store viewer a.author.username with
    | mk r tr =>
      cases r with
      | error e => simp
      | ok authorView =>
        obtain ⟨a0, ha0, e0, he0⟩ := hex
        have ha0rest : a0 ∈ rest := by
          rcases List.mem_cons.mp ha0 with h | h
          · subst h
            rw [hgv] at he0
            simp at he0
          · exact h
        have hrec := ih (fun a' ha' => hall a' (List.mem_cons_of_mem a ha'))
          ⟨a0, ha0rest, e0, he0⟩
        cases hrest : Repository.views_loop store viewer favs rest with
        | mk res tr' =>
          rw [hrest] at hrec
          simp at hrec
          subst hrec
          simp

/-- C8: when the batched favorites mapping contains every input slug as a key
(the adapter totality contract), the direct indexing of the mapping inside
`get_articles_views` never reaches the panic branch, for every viewer and
article list. -/
theorem get_articles_views_no_lookup_panic (store : Store) (viewer : domain.User)
    (arts : List domain.Article)
    (h : ∀ a ∈ arts, a.slug ∈ (favorites.are_favorite store viewer.id
          (arts.map (fun x => x.slug))).map Prod.fst) :
    Repository.get_articles_views store viewer arts ≠ .panicked := by
  rw [get_articles_views_eq_loop]
  exact views_loop_no_panic store viewer _ arts
    (fun a ha => lookupFav_isSome_of_mem_keys _ a.slug (h a ha))

/-- C8 witness: the sample batch, whose mapping covers both slugs. -/
theorem get_articles_views_no_lookup_panic_witness :
    Repository.get_articles_views sampleStore viewerVic sampleArts ≠ .panicked :=
  get_articles_views_no_lookup_panic sampleStore viewerVic sampleArts (by decide)

/-- C9 counterexample: in the batched view path a missing author does NOT
panic — with the author "ghost" absent from the store, `get_articles_views`
returns the typed error DatabaseError, refuting the claim that the batched
path unwraps the author lookup. -/
theorem batched_missing_author_returns_error_not_panic :
    Repository.get_articles_views emptyStore viewerVic [articleGhost]
      = .err .databaseError ∧
    Repository.get_articles_views emptyStore viewerVic [articleGhost] ≠ .panicked := by
  constructor
  · decide
  · decide

/-- C9 amended: the unwrapped author lookup sits in the single-article view
path — `get_article_view` panics when the article's author is missing — while
the batched path surfaces the same situation as a returned DatabaseError. -/
theorem get_article_view_unwrap_panics (store : Store) (viewer : domain.User)
    (article : domain.Article)
    (h : users.find_by_username store article.author.username = .error .notFound) :
    Repository.get_article_view store viewer article = .panicked ∧
    Repository.get_articles_views store viewer [article] = .err .databaseError := by
  have hv : (Repository.get_view_traced store viewer article.author.username).1
      = .error (domain.GetUserError.fromAdapter .notFound) := by
    simp only [Repository.get_view_traced]
    rw [h]
  constructor
  · simp only [Repository.get_article_view, Repository.get_view]
    rw [hv]
  · rw [get_articles_views_eq_loop]
    refine views_loop_err_of_exists store viewer _ [article] ?_ ?_
    · intro a ha
      refine ⟨_, lookupFav_are_favorite store viewer.id _ a.slug ?_⟩
      exact List.mem_map.mpr ⟨a, ha, rfl⟩
    · exact ⟨article, List.mem_cons_self article [], _, hv⟩

/-- C9 witness: the ghost-authored article against the empty store. -/
theorem get_article_view_unwrap_panics_witness :
    Repository.get_article_view emptyStore viewerVic articleGhost = .panicked ∧
    Repository.get_articles_views emptyStore viewerVic [articleGhost]
      = .err .databaseError :=
  get_article_view_unwrap_panics emptyStore viewerVic articleGhost (by decide)

/-- C10: if the author-profile lookup fails for any article of the batch,
`get_articles_views` fails the whole batch with the single opaque
DatabaseError (the GetUserError is widened, losing the NotFound distinction)
and returns no partial list. -/
theorem get_articles_views_fails_whole_batch (store : Store) (viewer : domain.User)
    (arts : List domain.Article)
    (h : ∃ a ∈ arts, ∃ e, Repository.get_view store viewer a.author.username
        = .error e) :
    Repository.get_articles_views store viewer arts = .err .databaseError := by
  rw [get_articles_views_eq_loop]
  refine views_loop_err_of_exists store viewer _ arts ?_ h
  intro a ha
  refine ⟨_, lookupFav_are_favorite store viewer.id _ a.slug ?_⟩
  exact List.mem_map.mpr ⟨a, ha, rfl⟩

/-- C10 witness: a batch of ["hello-world", ghost-authored] on the sample
store fails whole. -/
theorem get_articles_views_fails_whole_batch_witness :
    Repository.get_articles_views sampleStore viewerVic [articleHello, articleGhost]
      = .err .databaseError :=
  get_articles_views_fails_whole_batch sampleStore viewerVic [articleHello, articleGhost]
    ⟨articleGhost, by decide, .notFound, by decide⟩

end Conduit
